import Mathlib

/-!
Shallow embedding of the achaekek Manifold-markets API client's request-modelling
and serialization layer, covering the modules `src/achaekek/request_types.py`
(namespace `RequestTypes`), `src/achaekek/achaekek.py` (namespace `Achaekek`) and
the older `src/src/achaekek/__init__.py` (namespace `OldInit`), together with
theorems settling the frozen claims about them.

Python dictionaries produced by the serializers are modelled as association lists
`List (String × PyVal)` with insertion-ordered keys; `PyVal` is the closed universe
of Python runtime values that actually occur in these request dataclasses.
Methods that can raise are modelled in `Except PyErr`.
-/

/-- The Python exceptions that the embedded code can raise. -/
inductive PyErr where
  | attributeError
  deriving DecidableEq

/-- `OutcomeType` enum, defined identically in `request_types.py`, `achaekek.py`
and both `__init__.py` revisions. -/
inductive OutcomeType where
  | BINARY
  | MULTIPLE_CHOICE
  | PSEUDO_NUMERIC
  | POLL
  | BOUNTIED_QUESTION
  deriving DecidableEq

/-- The `.value` attribute of an `OutcomeType` member: its wire string. -/
def OutcomeType.value : OutcomeType → String
  | .BINARY => "BINARY"
  | .MULTIPLE_CHOICE => "MULTIPLE_CHOICE"
  | .PSEUDO_NUMERIC => "PSEUDO_NUMERIC"
  | .POLL => "POLL"
  | .BOUNTIED_QUESTION => "BOUNTIED_QUESTION"

/-- `DescriptionFormat` enum (`request_types.py` and `achaekek.py`). -/
inductive DescriptionFormat where
  | HTML
  | MARKDOWN
  | JSON
  deriving DecidableEq

/-- The `.value` attribute of a `DescriptionFormat` member. -/
def DescriptionFormat.value : DescriptionFormat → String
  | .HTML => "descriptionHTML"
  | .MARKDOWN => "descriptionMarkdown"
  | .JSON => "descriptionJSON"

/-- The comment-body tag of `CreateCommentRequest.description`, a
`Literal["content", "html", "markdown"]` plain string in the source. -/
inductive CommentFormat where
  | content
  | html
  | markdown
  deriving DecidableEq

/-- The plain string a `CommentFormat` literal denotes. -/
def CommentFormat.lit : CommentFormat → String
  | .content => "content"
  | .html => "html"
  | .markdown => "markdown"

/-- A `datetime.datetime` value, identified by the point in time it denotes under
the local-timezone interpretation used by the source: `epochSeconds` is the value
`time.mktime(d.timetuple())` returns (whole seconds since the Unix epoch, local
interpretation; `timetuple()` has second granularity), and `microseconds` is the
sub-second part that `timetuple()` discards. -/
structure Datetime where
  epochSeconds : Int
  microseconds : Nat := 0
  deriving DecidableEq

/-- `int(time.mktime(d.timetuple()) * 1000)`: the epoch-millisecond serialization
of a datetime. `timetuple()` drops microseconds, `mktime` returns whole seconds,
so the result is exactly `epochSeconds * 1000`. -/
def Datetime.mktimeMs (d : Datetime) : Int :=
  d.epochSeconds * 1000

/-- `datetime.fromtimestamp(ms / 1000)`: reconstructing a structured local time
from an epoch-millisecond value (the deserialization direction of the spec's
round-trip property; for the values this client produces, `ms` is a whole number
of thousands, so the division is exact). -/
def datetimeOfEpochMillis (ms : Int) : Datetime :=
  { epochSeconds := ms / 1000, microseconds := ((ms % 1000) * 1000).toNat }

/-- `MultipleChoiceResolution` dataclass (`request_types.py`): one `{answer, pct}`
allocation. -/
structure MultipleChoiceResolution where
  answer : String
  pct : Int
  deriving DecidableEq

/-- `ResolveMultipleChoiceMarket.outcome`: `Literal["MKT", "CANCEL"] | int`. -/
inductive ResolveMCOutcome where
  | MKT
  | CANCEL
  | index (bucket : Int)
  deriving DecidableEq

/-- A market description: `str | tuple[str, DescriptionFormat]`. -/
inductive DescriptionVal where
  | plain (s : String)
  | tagged (content : String) (fmt : DescriptionFormat)
  deriving DecidableEq

/-- A comment body: `str | tuple[str, Literal["content", "html", "markdown"]]`. -/
inductive CommentDescVal where
  | plain (s : String)
  | tagged (content : String) (fmt : CommentFormat)
  deriving DecidableEq

/-- The Python runtime values that occur in the request dataclasses' `__dict__`
and in the serialized payloads. `vnone` is Python `None`. Floats are modelled as
rationals (`vrat`); none of the claims depend on binary floating-point rounding.
`vdescTuple` / `vcommentTuple` are the `(content, tag)` tuples of tagged
descriptions; `vresList` is a list of `MultipleChoiceResolution` objects, and
`vresDicts` is the corresponding list of their plain `{answer, pct}` `__dict__`
mappings. -/
inductive PyVal where
  | vnone
  | vstr (s : String)
  | vint (n : Int)
  | vrat (q : ℚ)
  | vbool (b : Bool)
  | vstrList (l : List String)
  | voutcome (o : OutcomeType)
  | vdatetime (d : Datetime)
  | vdescTuple (content : String) (fmt : DescriptionFormat)
  | vcommentTuple (content : String) (fmt : CommentFormat)
  | vresList (l : List MultipleChoiceResolution)
  | vresDicts (l : List MultipleChoiceResolution)
  deriving DecidableEq

/-- Lift an optional field to its `__dict__` entry: absent fields hold `None`. -/
def optPy {α : Type} (f : α → PyVal) : Option α → PyVal
  | none => .vnone
  | some a => f a

/-- `k in d` for a Python dict modelled as an association list. -/
def hasKey : List (String × PyVal) → String → Bool
  | [], _ => false
  | (k', _) :: rest, k => if k' = k then true else hasKey rest k

/-- `d[k]` lookup (first occurrence; the dicts built here have unique keys). -/
def dictGet : List (String × PyVal) → String → Option PyVal
  | [], _ => none
  | (k', v) :: rest, k => if k' = k then some v else dictGet rest k

/-- `d[k] = v`: update the existing entry in place, else append a new one —
Python dict assignment semantics. -/
def setKey : List (String × PyVal) → String → PyVal → List (String × PyVal)
  | [], k, v => [(k, v)]
  | (k', v') :: rest, k, v =>
    if k' = k then (k, v) :: rest else (k', v') :: setKey rest k v

/-- `del d[k]`: remove the entry (all occurrences; the dicts here have unique
keys, so this matches Python's single deletion). -/
def delKey : List (String × PyVal) → String → List (String × PyVal)
  | [], _ => []
  | (k', v') :: rest, k =>
    if k' = k then delKey rest k else (k', v') :: delKey rest k

/-- Number of entries under a given key. -/
def countKey : List (String × PyVal) → String → Nat
  | [], _ => 0
  | (k', _) :: rest, k => (if k' = k then 1 else 0) + countKey rest k

/-- `{k: v for k, v in self.__dict__.items() if v is not None}` — the shared
omit-absent-fields comprehension. -/
def dropNone : List (String × PyVal) → List (String × PyVal)
  | [] => []
  | (k, v) :: rest =>
    if v = PyVal.vnone then dropNone rest else (k, v) :: dropNone rest

/-- Python attribute access `x.value`. Only enum members among the values in
this universe have a `.value` attribute; on anything else (in particular on a
plain `str`) the access raises `AttributeError`. -/
def PyVal.dotValue : PyVal → Except PyErr PyVal
  | .voutcome o => .ok (.vstr o.value)
  | _ => .error .attributeError

/-- The expression `super.to_json()` as it appears in `request_types.py`
(`CreateBetRequest.to_json`, `GetGroupsRequest.to_json`,
`ResolveMultipleChoiceMarket.to_json`): the parentheses after `super` are
missing, so this evaluates the attribute `to_json` of the builtin `super`
*type object* itself, which raises `AttributeError` before any field of
`self` is read. -/
def superDotToJson : Except PyErr (List (String × PyVal)) :=
  .error .attributeError

/-- Python `round(x, 2)` modelled over rationals (round half away from zero to
two decimal places; the only call site is unreachable dead code, so the
difference from CPython's float banker's rounding is never observable). -/
def round2 (q : ℚ) : ℚ :=
  ((round (q * 100) : ℤ) : ℚ) / 100


/-! ## The `request_types.py` module -/

namespace RequestTypes

/-- Base dataclass `_CreateMarket` (`request_types.py`): the market-creation
family's shared fields. `question` is required; the rest default to `None`.
`visibility` is a `Literal["public", "unlisted"]` plain string. -/
structure _CreateMarket where
  question : String
  closeTime : Option Datetime := none
  description : Option DescriptionVal := none
  visibility : Option String := none
  groupIds : Option (List String) := none
  extraLiquidity : Option Int := none
  deriving DecidableEq

/-- The base part of `self.__dict__`, in dataclass field order. -/
def _CreateMarket.baseDict (m : _CreateMarket) : List (String × PyVal) :=
  [("question", .vstr m.question),
   ("closeTime", optPy .vdatetime m.closeTime),
   ("description", optPy
      (fun d => match d with
        | .plain s => .vstr s
        | .tagged c f => .vdescTuple c f) m.description),
   ("visibility", optPy .vstr m.visibility),
   ("groupIds", optPy .vstrList m.groupIds),
   ("extraLiquidity", optPy .vint m.extraLiquidity)]

/-- `_CreateMarket.to_json`, the shared serializer of the market-creation
family. It receives the instance's full `__dict__` plus the `self` projections
the method body reads directly. Statement by statement:
`json = {k: v for k, v in self.__dict__.items() if v is not None}`;
`if "outcomeType" in json: json["outcomeType"] = self.outcomeType.value`;
`if "closeTime" in json: ...` — that key survives the comprehension exactly
when `self.closeTime is not None`, so the guard is rendered as a match on the
field; likewise the tagged-description guard
`if "description" in json and isinstance(self.description, tuple)`. -/
def createMarketToJson (selfDict : List (String × PyVal))
    (outcomeType : OutcomeType) (closeTime : Option Datetime)
    (description : Option DescriptionVal) : List (String × PyVal) :=
  let json := dropNone selfDict
  let json :=
    if hasKey json "outcomeType" then
      setKey json "outcomeType" (.vstr outcomeType.value)
    else json
  let json :=
    match closeTime with
    | some d => setKey json "closeTime" (.vint d.mktimeMs)
    | none => json
  let json :=
    match description with
    | some (.tagged content fmt) =>
        -- json[self.description[1].value] = self.description[0]; del json["description"]
        let json := setKey json fmt.value (.vstr content)
        delKey json "description"
    | _ => json
  json

/-- `CreateBinaryMarket` dataclass. -/
structure CreateBinaryMarket extends _CreateMarket where
  initialProb : Int
  outcomeType : OutcomeType := .BINARY
  deriving DecidableEq

/-- `self.__dict__` of a `CreateBinaryMarket`, in dataclass field order. -/
def CreateBinaryMarket.selfDict (m : CreateBinaryMarket) : List (String × PyVal) :=
  m.to_CreateMarket.baseDict ++
    [("initialProb", .vint m.initialProb),
     ("outcomeType", .voutcome m.outcomeType)]

def CreateBinaryMarket.to_json (m : CreateBinaryMarket) : List (String × PyVal) :=
  createMarketToJson m.selfDict m.outcomeType m.closeTime m.description

/-- `CreatePseudoNumericMarket` dataclass (floats modelled as rationals). -/
structure CreatePseudoNumericMarket extends _CreateMarket where
  min : ℚ
  max : ℚ
  isLogScale : Bool
  initialValue : ℚ
  outcomeType : OutcomeType := .PSEUDO_NUMERIC
  deriving DecidableEq

def CreatePseudoNumericMarket.selfDict (m : CreatePseudoNumericMarket) :
    List (String × PyVal) :=
  m.to_CreateMarket.baseDict ++
    [("min", .vrat m.min),
     ("max", .vrat m.max),
     ("isLogScale", .vbool m.isLogScale),
     ("initialValue", .vrat m.initialValue),
     ("outcomeType", .voutcome m.outcomeType)]

def CreatePseudoNumericMarket.to_json (m : CreatePseudoNumericMarket) :
    List (String × PyVal) :=
  createMarketToJson m.selfDict m.outcomeType m.closeTime m.description

/-- `CreateMultipleChoiceMarket` dataclass. In this module `addAnswersMode` is a
`Literal["DISABLED", "ONLY_CREATORS", "ANYONE"]` — a plain string, not an enum. -/
structure CreateMultipleChoiceMarket extends _CreateMarket where
  answers : List String
  addAnswersMode : String
  outcomeType : OutcomeType := .MULTIPLE_CHOICE
  shouldAnswersSumToOne : Bool := true
  deriving DecidableEq

def CreateMultipleChoiceMarket.selfDict (m : CreateMultipleChoiceMarket) :
    List (String × PyVal) :=
  m.to_CreateMarket.baseDict ++
    [("answers", .vstrList m.answers),
     ("addAnswersMode", .vstr m.addAnswersMode),
     ("outcomeType", .voutcome m.outcomeType),
     ("shouldAnswersSumToOne", .vbool m.shouldAnswersSumToOne)]

/-- `CreateMultipleChoiceMarket.to_json`:
`dictionary = super().to_json()` then, if present,
`dictionary["addAnswersMode"] = dictionary["addAnswersMode"].value`.
The stored value is a plain string, so the `.value` attribute access raises.
(The `getD .vnone` default is unreachable: the guard has established the key.) -/
def CreateMultipleChoiceMarket.to_json (m : CreateMultipleChoiceMarket) :
    Except PyErr (List (String × PyVal)) := do
  let dictionary := createMarketToJson m.selfDict m.outcomeType m.closeTime m.description
  if hasKey dictionary "addAnswersMode" then
    let v ← ((dictGet dictionary "addAnswersMode").getD .vnone).dotValue
    return setKey dictionary "addAnswersMode" v
  else
    return dictionary

/-- `CreatePollMarket` dataclass. -/
structure CreatePollMarket extends _CreateMarket where
  answers : List String
  outcomeType : OutcomeType := .POLL
  deriving DecidableEq

def CreatePollMarket.selfDict (m : CreatePollMarket) : List (String × PyVal) :=
  m.to_CreateMarket.baseDict ++
    [("answers", .vstrList m.answers),
     ("outcomeType", .voutcome m.outcomeType)]

def CreatePollMarket.to_json (m : CreatePollMarket) : List (String × PyVal) :=
  createMarketToJson m.selfDict m.outcomeType m.closeTime m.description

/-- `CreateBountiedQuestionMarket` dataclass. -/
structure CreateBountiedQuestionMarket extends _CreateMarket where
  totalBounty : Int
  outcomeType : OutcomeType := .BOUNTIED_QUESTION
  deriving DecidableEq

def CreateBountiedQuestionMarket.selfDict (m : CreateBountiedQuestionMarket) :
    List (String × PyVal) :=
  m.to_CreateMarket.baseDict ++
    [("totalBounty", .vint m.totalBounty),
     ("outcomeType", .voutcome m.outcomeType)]

def CreateBountiedQuestionMarket.to_json (m : CreateBountiedQuestionMarket) :
    List (String × PyVal) :=
  createMarketToJson m.selfDict m.outcomeType m.closeTime m.description

/-- `RequestModel.to_json`: the shared
`{k: v for k, v in self.__dict__.items() if v is not None}`. -/
def requestModelToJson (selfDict : List (String × PyVal)) : List (String × PyVal) :=
  dropNone selfDict

/-- `CreateBetRequest` dataclass of `request_types.py`. Here `outcome` is a
`Literal["YES", "NO"]` plain string defaulting to `"YES"`. -/
structure CreateBetRequest where
  amount : Int
  contractId : String
  outcome : String := "YES"
  limitprob : Option ℚ := none
  expiresAt : Option Datetime := none
  deriving DecidableEq

def CreateBetRequest.selfDict (r : CreateBetRequest) : List (String × PyVal) :=
  [("amount", .vint r.amount),
   ("contractId", .vstr r.contractId),
   ("outcome", .vstr r.outcome),
   ("limitprob", optPy .vrat r.limitprob),
   ("expiresAt", optPy .vdatetime r.expiresAt)]

/-- `CreateBetRequest.to_json` of `request_types.py`. Its first statement is
`json = super.to_json()` — see `superDotToJson`: it raises `AttributeError`
unconditionally, so everything after the first bind is unreachable dead code
(kept here to mirror the source body). -/
def CreateBetRequest.to_json (r : CreateBetRequest) :
    Except PyErr (List (String × PyVal)) := do
  let json ← superDotToJson
  -- unreachable from here on
  let outcomeV ← ((dictGet json "outcome").getD .vnone).dotValue
  let json := setKey json "outcome" outcomeV
  let json :=
    match r.limitprob with
    | some q => setKey json "limitprob" (.vrat (round2 q))
    | none => json
  let json :=
    match r.expiresAt with
    | some d => setKey json "expiresAt" (.vint d.mktimeMs)
    | none => json
  return json

/-- `GetMarketsRequest` dataclass of `request_types.py` (inherits
`RequestModel.to_json`). -/
structure GetMarketsRequest where
  limit : Option Int := none
  sort : Option String := none
  order : Option String := none
  before : Option String := none
  userId : Option String := none
  groupId : Option String := none
  deriving DecidableEq

def GetMarketsRequest.selfDict (r : GetMarketsRequest) : List (String × PyVal) :=
  [("limit", optPy .vint r.limit),
   ("sort", optPy .vstr r.sort),
   ("order", optPy .vstr r.order),
   ("before", optPy .vstr r.before),
   ("userId", optPy .vstr r.userId),
   ("groupId", optPy .vstr r.groupId)]

def GetMarketsRequest.to_json (r : GetMarketsRequest) : List (String × PyVal) :=
  requestModelToJson r.selfDict

/-- `GetGroupsRequest` dataclass of `request_types.py`. -/
structure GetGroupsRequest where
  beforeTime : Option Datetime := none
  availableToUserId : Option String := none
  deriving DecidableEq

def GetGroupsRequest.selfDict (r : GetGroupsRequest) : List (String × PyVal) :=
  [("beforeTime", optPy .vdatetime r.beforeTime),
   ("availableToUserId", optPy .vstr r.availableToUserId)]

/-- `GetGroupsRequest.to_json`: starts with `json = super.to_json()` (missing
parentheses), so it raises `AttributeError` unconditionally; the rest of the
body is unreachable. -/
def GetGroupsRequest.to_json (r : GetGroupsRequest) :
    Except PyErr (List (String × PyVal)) := do
  let json ← superDotToJson
  -- unreachable from here on
  let json :=
    match r.beforeTime with
    | some d => setKey json "beforeTime" (.vint d.mktimeMs)
    | none => json
  return json

/-- `ResolveMultipleChoiceMarket` dataclass. Plain dataclass construction: the
generated `__init__` just stores the fields, performing no validation of
`resolutions` (no emptiness or sum-to-100 check; no `InvalidResolution` class
exists anywhere in the repository). -/
structure ResolveMultipleChoiceMarket where
  outcome : ResolveMCOutcome
  resolutions : Option (List MultipleChoiceResolution) := none
  deriving DecidableEq

/-- `__dict__` value of the `outcome` field: a string literal or an int. -/
def mcOutcomePy : ResolveMCOutcome → PyVal
  | .MKT => .vstr "MKT"
  | .CANCEL => .vstr "CANCEL"
  | .index n => .vint n

def ResolveMultipleChoiceMarket.selfDict (r : ResolveMultipleChoiceMarket) :
    List (String × PyVal) :=
  [("outcome", mcOutcomePy r.outcome),
   ("resolutions", optPy .vresList r.resolutions)]

/-- `ResolveMultipleChoiceMarket.to_json`: starts with `json = super.to_json()`
(missing parentheses), so it raises `AttributeError` unconditionally; the
rendering of `resolutions` as `[r.__dict__ for r in self.resolutions]`
(a list of plain `{answer, pct}` mappings, `vresDicts`) is unreachable. -/
def ResolveMultipleChoiceMarket.to_json (r : ResolveMultipleChoiceMarket) :
    Except PyErr (List (String × PyVal)) := do
  let json ← superDotToJson
  -- unreachable from here on
  let json :=
    match r.resolutions with
    | some l => setKey json "resolutions" (.vresDicts l)
    | none => json
  return json

/-- `CreateCommentRequest` dataclass. -/
structure CreateCommentRequest where
  contractId : String
  description : Option CommentDescVal := none
  deriving DecidableEq

def CreateCommentRequest.selfDict (c : CreateCommentRequest) :
    List (String × PyVal) :=
  [("contractId", .vstr c.contractId),
   ("description", optPy
      (fun d => match d with
        | .plain s => .vstr s
        | .tagged content f => .vcommentTuple content f) c.description)]

/-- `CreateCommentRequest.to_json`: `json = super().to_json()` (correctly
parenthesized here), then for a tagged body
`json[self.description[1]] = self.description[0]; del json["description"]` —
the tag string itself is the field name. -/
def CreateCommentRequest.to_json (c : CreateCommentRequest) :
    List (String × PyVal) :=
  let json := requestModelToJson c.selfDict
  match c.description with
  | some (.tagged content f) =>
      let json := setKey json f.lit (.vstr content)
      delKey json "description"
  | _ => json

/-- `GetManagramsRequest` dataclass. -/
structure GetManagramsRequest where
  toId : Option String := none
  fromId : Option String := none
  limit : Option Int := none
  before : Option Datetime := none
  after : Option Datetime := none
  deriving DecidableEq

def GetManagramsRequest.selfDict (g : GetManagramsRequest) :
    List (String × PyVal) :=
  [("toId", optPy .vstr g.toId),
   ("fromId", optPy .vstr g.fromId),
   ("limit", optPy .vint g.limit),
   ("before", optPy .vdatetime g.before),
   ("after", optPy .vdatetime g.after)]

/-- `GetManagramsRequest.to_json`: `json = super().to_json()` (correct call),
then the `before` / `after` timestamps are replaced by their epoch-millisecond
values; each key is present exactly when the field is not `None`. -/
def GetManagramsRequest.to_json (g : GetManagramsRequest) :
    List (String × PyVal) :=
  let json := requestModelToJson g.selfDict
  let json :=
    match g.before with
    | some d => setKey json "before" (.vint d.mktimeMs)
    | none => json
  let json :=
    match g.after with
    | some d => setKey json "after" (.vint d.mktimeMs)
    | none => json
  json

end RequestTypes

/-! ## The `achaekek.py` module (Transport Client and its request dataclasses) -/

namespace Achaekek

/-- `AddAnswersMode` enum of `achaekek.py` (also of `src/achaekek/__init__.py`):
three distinct members. -/
inductive AddAnswersMode where
  | DISABLED
  | ONLY_CREATORS
  | ANYONE
  deriving DecidableEq

/-- The `.value` wire string of an `achaekek.py` `AddAnswersMode` member —
each member has its own. -/
def AddAnswersMode.value : AddAnswersMode → String
  | .DISABLED => "DISABLED"
  | .ONLY_CREATORS => "ONLY_CREATORS"
  | .ANYONE => "ANYONE"

/-- `GetMarketsRequest` dataclass of `achaekek.py` (all fields optional; this
module's copy has no `to_json` at all). -/
structure GetMarketsRequest where
  limit : Option Int := none
  sort : Option String := none
  order : Option String := none
  before : Option String := none
  userId : Option String := none
  groupId : Option String := none
  deriving DecidableEq

/-- `request.__dict__` of an `achaekek.py` `GetMarketsRequest`: every field
appears, absent ones as Python `None`. -/
def GetMarketsRequest.selfDict (r : GetMarketsRequest) : List (String × PyVal) :=
  [("limit", optPy .vint r.limit),
   ("sort", optPy .vstr r.sort),
   ("order", optPy .vstr r.order),
   ("before", optPy .vstr r.before),
   ("userId", optPy .vstr r.userId),
   ("groupId", optPy .vstr r.groupId)]

/-- `SearchRequest` dataclass of `achaekek.py` (`term` required). -/
structure SearchRequest where
  term : String
  sort : Option String := none
  filter : Option String := none
  contractType : Option String := none
  topicSlug : Option String := none
  creatorId : Option String := none
  limit : Option Int := none
  offset : Option Int := none
  deriving DecidableEq

def SearchRequest.selfDict (r : SearchRequest) : List (String × PyVal) :=
  [("term", .vstr r.term),
   ("sort", optPy .vstr r.sort),
   ("filter", optPy .vstr r.filter),
   ("contractType", optPy .vstr r.contractType),
   ("topicSlug", optPy .vstr r.topicSlug),
   ("creatorId", optPy .vstr r.creatorId),
   ("limit", optPy .vint r.limit),
   ("offset", optPy .vint r.offset)]

/-- `GetBetsRequest` dataclass of `achaekek.py`. -/
structure GetBetsRequest where
  userId : Option String := none
  username : Option String := none
  contractId : Option String := none
  contractSlug : Option String := none
  limit : Option Int := none
  before : Option String := none
  after : Option String := none
  kinds : Option String := none
  order : Option String := none
  deriving DecidableEq

def GetBetsRequest.selfDict (r : GetBetsRequest) : List (String × PyVal) :=
  [("userId", optPy .vstr r.userId),
   ("username", optPy .vstr r.username),
   ("contractId", optPy .vstr r.contractId),
   ("contractSlug", optPy .vstr r.contractSlug),
   ("limit", optPy .vint r.limit),
   ("before", optPy .vstr r.before),
   ("after", optPy .vstr r.after),
   ("kinds", optPy .vstr r.kinds),
   ("order", optPy .vstr r.order)]

/-- `GetCommentsRequest` dataclass of `achaekek.py`. -/
structure GetCommentsRequest where
  contractId : Option String := none
  contractSlug : Option String := none
  limit : Option Int := none
  page : Option Int := none
  userId : Option String := none
  deriving DecidableEq

def GetCommentsRequest.selfDict (r : GetCommentsRequest) : List (String × PyVal) :=
  [("contractId", optPy .vstr r.contractId),
   ("contractSlug", optPy .vstr r.contractSlug),
   ("limit", optPy .vint r.limit),
   ("page", optPy .vint r.page),
   ("userId", optPy .vstr r.userId)]

/-- The Transport Client (`class Client`): stateless except for the held
credential. Its query methods are modelled by the observable request they
build: the endpoint path together with the `params` mapping handed to the
HTTP library. -/
structure Client where
  api_key : String

/-- `Client.get_markets`:
`self._get("/markets", params=request.__dict__)` — the params mapping passed
on is the raw attribute dict, `None`-valued keys included. -/
def Client.get_markets (_c : Client) (request : GetMarketsRequest) :
    String × List (String × PyVal) :=
  ("/markets", request.selfDict)

/-- `Client.search_markets`:
`self._get("/search-markets", params=request.__dict__)`. -/
def Client.search_markets (_c : Client) (request : SearchRequest) :
    String × List (String × PyVal) :=
  ("/search-markets", request.selfDict)

/-- `Client.get_bets`: `self._get("/bets", params=request.__dict__)`. -/
def Client.get_bets (_c : Client) (request : GetBetsRequest) :
    String × List (String × PyVal) :=
  ("/bets", request.selfDict)

/-- `Client.get_comments`: `self._get("/comments", params=request.__dict__)`. -/
def Client.get_comments (_c : Client) (request : GetCommentsRequest) :
    String × List (String × PyVal) :=
  ("/comments", request.selfDict)

end Achaekek

/-! ## The older `src/src/achaekek/__init__.py` module -/

namespace OldInit

/-- `AddAnswersMode` enum of `src/src/achaekek/__init__.py`. Its source reads
`DISABLED = "DISABLED"`, `ONLY_CREATORS = "ONLY_CREATORS"`,
`ANYONE = "DISABLED"` — the member name `ANYONE` is bound to the wire string
`"DISABLED"` (under Python `Enum` semantics it becomes an alias of
`DISABLED`), so two symbolic names share one wire string. -/
inductive AddAnswersMode where
  | DISABLED
  | ONLY_CREATORS
  | ANYONE
  deriving DecidableEq

/-- The wire string each symbolic name of the old enum resolves to. -/
def AddAnswersMode.value : AddAnswersMode → String
  | .DISABLED => "DISABLED"
  | .ONLY_CREATORS => "ONLY_CREATORS"
  | .ANYONE => "DISABLED"

end OldInit

/-! ## State-passing rendition of the serializers (for the frame claim) -/

namespace RequestTypes

/-- `_CreateMarket.to_json` for a `CreateBinaryMarket`, written with the
mutable state explicit: the pair carried through is (local `json` dict,
`self`). Each statement of the method body writes only the local `json`
binding (the fresh dict built by the comprehension); no statement assigns to
`self` or any of its attributes, so the `self` component is threaded through
unchanged and returned alongside the payload. -/
def CreateBinaryMarket.to_json_run (m : CreateBinaryMarket) :
    List (String × PyVal) × CreateBinaryMarket :=
  let self := m
  let json := dropNone self.selfDict
  let json :=
    if hasKey json "outcomeType" then
      setKey json "outcomeType" (.vstr self.outcomeType.value)
    else json
  let json :=
    match self.closeTime with
    | some d => setKey json "closeTime" (.vint d.mktimeMs)
    | none => json
  let json :=
    match self.description with
    | some (.tagged content fmt) =>
        let json := setKey json fmt.value (.vstr content)
        delKey json "description"
    | _ => json
  (json, self)

/-- `RequestModel.to_json` for a `GetMarketsRequest`, with the state explicit:
the comprehension reads `self.__dict__` and builds a fresh dict; `self` is
never written. -/
def GetMarketsRequest.to_json_run (r : GetMarketsRequest) :
    List (String × PyVal) × GetMarketsRequest :=
  let self := r
  let json := dropNone self.selfDict
  (json, self)

end RequestTypes

/-! ## Dictionary-operation lemmas -/

section DictLemmas

theorem dictGet_eq_none_of_countKey_zero (l : List (String × PyVal)) (k : String)
    (h : countKey l k = 0) : dictGet l k = none := by
  induction l with
  | nil => rfl
  | cons p rest ih =>
    obtain ⟨k', v⟩ := p
    by_cases hk : k' = k
    · simp [countKey, hk] at h
    · simp [countKey, hk] at h
      simp [dictGet, hk, ih h]

theorem countKey_dropNone_le (l : List (String × PyVal)) (k : String) :
    countKey (dropNone l) k ≤ countKey l k := by
  induction l with
  | nil => simp [dropNone]
  | cons p rest ih =>
    obtain ⟨k', v⟩ := p
    by_cases hv : v = PyVal.vnone
    · simp [dropNone, hv, countKey]
      omega
    · simp [dropNone, hv, countKey]
      omega

theorem dictGet_dropNone_eq_none_of_countKey_zero (l : List (String × PyVal))
    (k : String) (h : countKey l k = 0) : dictGet (dropNone l) k = none := by
  apply dictGet_eq_none_of_countKey_zero
  have := countKey_dropNone_le l k
  omega

/-- Looking a key up after the omit-`None` comprehension: for a dict whose key
occurs at most once, the result is the original value unless it was `None`. -/
theorem dictGet_dropNone (l : List (String × PyVal)) (k : String)
    (h : countKey l k ≤ 1) :
    dictGet (dropNone l) k
      = (dictGet l k).bind (fun v => if v = PyVal.vnone then none else some v) := by
  induction l with
  | nil => rfl
  | cons p rest ih =>
    obtain ⟨k', v⟩ := p
    by_cases hk : k' = k
    · subst hk
      have h0 : countKey rest k' = 0 := by
        simp [countKey] at h
        omega
      by_cases hv : v = PyVal.vnone
      · subst hv
        simp [dropNone, dictGet,
          dictGet_dropNone_eq_none_of_countKey_zero rest k' h0]
      · simp [dropNone, dictGet, hv]
    · have h' : countKey rest k ≤ 1 := by
        simp [countKey, hk] at h
        omega
      by_cases hv : v = PyVal.vnone
      · simp [dropNone, dictGet, hk, hv, ih h']
      · simp [dropNone, dictGet, hk, hv, ih h']

@[simp] theorem dictGet_setKey_self (d : List (String × PyVal)) (k : String)
    (v : PyVal) : dictGet (setKey d k v) k = some v := by
  induction d with
  | nil => simp [setKey, dictGet]
  | cons p rest ih =>
    obtain ⟨k', v'⟩ := p
    by_cases hk : k' = k
    · simp [setKey, hk, dictGet]
    · simp [setKey, hk, dictGet, ih]

theorem dictGet_setKey_ne (d : List (String × PyVal)) {k' k : String} (v : PyVal)
    (h : k' ≠ k) : dictGet (setKey d k' v) k = dictGet d k := by
  induction d with
  | nil => simp [setKey, dictGet, h]
  | cons p rest ih =>
    obtain ⟨k'', v''⟩ := p
    by_cases hk : k'' = k'
    · subst hk
      simp [setKey, dictGet, h]
    · simp [setKey, hk, dictGet, ih]

@[simp] theorem dictGet_delKey_self (d : List (String × PyVal)) (k : String) :
    dictGet (delKey d k) k = none := by
  induction d with
  | nil => rfl
  | cons p rest ih =>
    obtain ⟨k', v'⟩ := p
    by_cases hk : k' = k
    · simp [delKey, hk, ih]
    · simp [delKey, hk, dictGet, ih]

theorem dictGet_delKey_ne (d : List (String × PyVal)) {k' k : String}
    (h : k' ≠ k) : dictGet (delKey d k') k = dictGet d k := by
  induction d with
  | nil => rfl
  | cons p rest ih =>
    obtain ⟨k'', v''⟩ := p
    by_cases hk : k'' = k'
    · subst hk
      simp [delKey, dictGet, h, ih]
    · simp [delKey, hk, dictGet, ih]

theorem hasKey_dropNone_false (l : List (String × PyVal)) (k : String)
    (h : hasKey l k = false) : hasKey (dropNone l) k = false := by
  induction l with
  | nil => rfl
  | cons p rest ih =>
    obtain ⟨k', v⟩ := p
    by_cases hk : k' = k
    · simp [hasKey, hk] at h
    · by_cases hv : v = PyVal.vnone
      · simp [hasKey, hk] at h
        simp [dropNone, hv, ih h]
      · simp [hasKey, hk] at h
        simp [dropNone, hv, hasKey, hk, ih h]

theorem hasKey_setKey (d : List (String × PyVal)) (k' k : String) (v : PyVal) :
    hasKey (setKey d k' v) k = (decide (k' = k) || hasKey d k) := by
  induction d with
  | nil => simp [setKey, hasKey]
  | cons p rest ih =>
    obtain ⟨k'', v''⟩ := p
    by_cases hk : k'' = k'
    · subst hk
      by_cases hkk : k'' = k
      · simp [setKey, hasKey, hkk]
      · simp [setKey, hasKey, hkk]
    · by_cases hkk : k'' = k
      · subst hkk
        simp [setKey, hk, hasKey]
      · simp [setKey, hk, hasKey, hkk, ih]

theorem countKey_eq_zero_of_not_hasKey (d : List (String × PyVal)) (k : String)
    (h : hasKey d k = false) : countKey d k = 0 := by
  induction d with
  | nil => rfl
  | cons p rest ih =>
    obtain ⟨k', v⟩ := p
    by_cases hk : k' = k
    · simp [hasKey, hk] at h
    · simp [hasKey, hk] at h
      simp [countKey, hk, ih h]

theorem setKey_of_not_hasKey (d : List (String × PyVal)) (k : String) (v : PyVal)
    (h : hasKey d k = false) : setKey d k v = d ++ [(k, v)] := by
  induction d with
  | nil => rfl
  | cons p rest ih =>
    obtain ⟨k', v'⟩ := p
    by_cases hk : k' = k
    · simp [hasKey, hk] at h
    · simp [hasKey, hk] at h
      simp [setKey, hk, ih h]

theorem countKey_append (d e : List (String × PyVal)) (k : String) :
    countKey (d ++ e) k = countKey d k + countKey e k := by
  induction d with
  | nil => simp [countKey]
  | cons p rest ih =>
    obtain ⟨k', v⟩ := p
    simp [countKey, ih]
    omega

theorem countKey_delKey_ne (d : List (String × PyVal)) {k' k : String}
    (h : k' ≠ k) : countKey (delKey d k') k = countKey d k := by
  induction d with
  | nil => rfl
  | cons p rest ih =>
    obtain ⟨k'', v''⟩ := p
    by_cases hk : k'' = k'
    · subst hk
      have : k'' ≠ k := h
      simp [delKey, countKey, this, ih]
    · simp [delKey, hk, countKey, ih]

theorem countKey_setKey_of_not_hasKey (d : List (String × PyVal)) (k : String)
    (v : PyVal) (h : hasKey d k = false) :
    countKey (setKey d k v) k = 1 := by
  rw [setKey_of_not_hasKey d k v h, countKey_append,
    countKey_eq_zero_of_not_hasKey d k h]
  simp [countKey]

end DictLemmas

theorem hasKey_setKey_ne (d : List (String × PyVal)) {k' k : String} (v : PyVal)
    (h : k' ≠ k) : hasKey (setKey d k' v) k = hasKey d k := by
  rw [hasKey_setKey]
  simp [h]

theorem hasKey_of_dictGet_some (l : List (String × PyVal)) (k : String) (v : PyVal)
    (h : dictGet l k = some v) : hasKey l k = true := by
  induction l with
  | nil => simp [dictGet] at h
  | cons p rest ih =>
    obtain ⟨k', v'⟩ := p
    by_cases hk : k' = k
    · simp [hasKey, hk]
    · simp [dictGet, hk] at h
      simp [hasKey, hk, ih h]

/-! ## Structural lemmas about the shared market serializer -/

/-- A key that none of the post-comprehension transformation steps of
`_CreateMarket.to_json` writes or deletes is looked up straight through to the
filtered `__dict__`. -/
theorem dictGet_createMarketToJson_untouched (sd : List (String × PyVal))
    (o : OutcomeType) (ct : Option Datetime) (dsc : Option DescriptionVal)
    (k : String)
    (hOut : ("outcomeType" : String) ≠ k)
    (hClose : ct = none ∨ ("closeTime" : String) ≠ k)
    (hDesc : (∀ c f, dsc ≠ some (.tagged c f)) ∨
             (("description" : String) ≠ k ∧ ∀ f : DescriptionFormat, f.value ≠ k)) :
    dictGet (RequestTypes.createMarketToJson sd o ct dsc) k = dictGet (dropNone sd) k := by
  have hite : dictGet
      (if hasKey (dropNone sd) "outcomeType" = true then
        setKey (dropNone sd) "outcomeType" (PyVal.vstr o.value)
      else dropNone sd) k = dictGet (dropNone sd) k := by
    split
    · rw [dictGet_setKey_ne _ _ hOut]
    · rfl
  rcases dsc with _ | (⟨s⟩ | ⟨c, f⟩) <;> rcases ct with _ | d <;>
      simp only [RequestTypes.createMarketToJson]
  · exact hite
  · rcases hClose with h | h
    · simp at h
    · rw [dictGet_setKey_ne _ _ h]
      exact hite
  · exact hite
  · rcases hClose with h | h
    · simp at h
    · rw [dictGet_setKey_ne _ _ h]
      exact hite
  · rcases hDesc with h | ⟨hd, hf⟩
    · exact absurd rfl (h c f)
    · rw [dictGet_delKey_ne _ hd, dictGet_setKey_ne _ _ (hf f)]
      exact hite
  · rcases hDesc with h | ⟨hd, hf⟩
    · exact absurd rfl (h c f)
    · rw [dictGet_delKey_ne _ hd, dictGet_setKey_ne _ _ (hf f)]
      rcases hClose with h | h
      · simp at h
      · rw [dictGet_setKey_ne _ _ h]
        exact hite

/-- In the payload of `_CreateMarket.to_json` for a tagged description, the
dynamically named field occurs exactly once, holds the raw content, and the
logical `description` key is gone — provided the tag's wire string was not
already a key of the instance's `__dict__`. -/
theorem createMarketToJson_tagged_props (sd : List (String × PyVal))
    (o : OutcomeType) (ct : Option Datetime) (c : String) (f : DescriptionFormat)
    (hsd : hasKey sd f.value = false) :
    countKey (RequestTypes.createMarketToJson sd o ct (some (.tagged c f))) f.value = 1 ∧
    dictGet (RequestTypes.createMarketToJson sd o ct (some (.tagged c f))) f.value = some (.vstr c) ∧
    dictGet (RequestTypes.createMarketToJson sd o ct (some (.tagged c f))) "description" = none := by
  have hfo : ("outcomeType" : String) ≠ f.value := by cases f <;> decide
  have hfc : ("closeTime" : String) ≠ f.value := by cases f <;> decide
  have hfd : ("description" : String) ≠ f.value := by cases f <;> decide
  have h0 : hasKey (dropNone sd) f.value = false := hasKey_dropNone_false _ _ hsd
  have h1 : hasKey
      (if hasKey (dropNone sd) "outcomeType" = true then
        setKey (dropNone sd) "outcomeType" (PyVal.vstr o.value)
      else dropNone sd) f.value = false := by
    split
    · rw [hasKey_setKey_ne _ _ hfo, h0]
    · exact h0
  rcases ct with _ | d <;> simp only [RequestTypes.createMarketToJson]
  · refine ⟨?_, ?_, ?_⟩
    · rw [countKey_delKey_ne _ hfd, countKey_setKey_of_not_hasKey _ _ _ h1]
    · rw [dictGet_delKey_ne _ hfd, dictGet_setKey_self]
    · rw [dictGet_delKey_self]
  · have h2 : hasKey
        (setKey
          (if hasKey (dropNone sd) "outcomeType" = true then
            setKey (dropNone sd) "outcomeType" (PyVal.vstr o.value)
          else dropNone sd) "closeTime" (PyVal.vint d.mktimeMs)) f.value = false := by
      rw [hasKey_setKey_ne _ _ hfc, h1]
    refine ⟨?_, ?_, ?_⟩
    · rw [countKey_delKey_ne _ hfd, countKey_setKey_of_not_hasKey _ _ _ h2]
    · rw [dictGet_delKey_ne _ hfd, dictGet_setKey_self]
    · rw [dictGet_delKey_self]

/-- Whenever the `outcomeType` key survives the comprehension, the shared
serializer rewrites it to the discriminator's wire string, and no later step
removes it. -/
theorem createMarketToJson_discriminator (sd : List (String × PyVal))
    (o : OutcomeType) (ct : Option Datetime) (dsc : Option DescriptionVal)
    (h : hasKey (dropNone sd) "outcomeType" = true) :
    dictGet (RequestTypes.createMarketToJson sd o ct dsc) "outcomeType"
      = some (.vstr o.value) := by
  have hbase : dictGet
      (if hasKey (dropNone sd) "outcomeType" = true then
        setKey (dropNone sd) "outcomeType" (PyVal.vstr o.value)
      else dropNone sd) "outcomeType" = some (.vstr o.value) := by
    rw [if_pos h, dictGet_setKey_self]
  have hfo : ∀ f : DescriptionFormat, f.value ≠ "outcomeType" := by
    intro f
    cases f <;> decide
  have hco : ("closeTime" : String) ≠ "outcomeType" := by decide
  have hdo : ("description" : String) ≠ "outcomeType" := by decide
  rcases dsc with _ | (⟨s⟩ | ⟨c, f⟩) <;> rcases ct with _ | d <;>
      simp only [RequestTypes.createMarketToJson]
  · exact hbase
  · rw [dictGet_setKey_ne _ _ hco]
    exact hbase
  · exact hbase
  · rw [dictGet_setKey_ne _ _ hco]
    exact hbase
  · rw [dictGet_delKey_ne _ hdo, dictGet_setKey_ne _ _ (hfo f)]
    exact hbase
  · rw [dictGet_delKey_ne _ hdo, dictGet_setKey_ne _ _ (hfo f), dictGet_setKey_ne _ _ hco]
    exact hbase

/-- The Binary variant's payload always carries the discriminator. -/
theorem CreateBinaryMarket_discriminator_present (m : RequestTypes.CreateBinaryMarket) :
    dictGet m.to_json "outcomeType" = some (.vstr m.outcomeType.value) := by
  rw [RequestTypes.CreateBinaryMarket.to_json]
  apply createMarketToJson_discriminator
  apply hasKey_of_dictGet_some _ _ (.voutcome m.outcomeType)
  have hcount : countKey m.selfDict "outcomeType" ≤ 1 := by
    simp [RequestTypes.CreateBinaryMarket.selfDict, RequestTypes._CreateMarket.baseDict,
      countKey]
  rw [dictGet_dropNone _ _ hcount]
  simp [RequestTypes.CreateBinaryMarket.selfDict, RequestTypes._CreateMarket.baseDict,
    dictGet, optPy]

/-- The Pseudo-numeric variant's payload always carries the discriminator. -/
theorem CreatePseudoNumericMarket_discriminator_present
    (m : RequestTypes.CreatePseudoNumericMarket) :
    dictGet m.to_json "outcomeType" = some (.vstr m.outcomeType.value) := by
  rw [RequestTypes.CreatePseudoNumericMarket.to_json]
  apply createMarketToJson_discriminator
  apply hasKey_of_dictGet_some _ _ (.voutcome m.outcomeType)
  have hcount : countKey m.selfDict "outcomeType" ≤ 1 := by
    simp [RequestTypes.CreatePseudoNumericMarket.selfDict,
      RequestTypes._CreateMarket.baseDict, countKey]
  rw [dictGet_dropNone _ _ hcount]
  simp [RequestTypes.CreatePseudoNumericMarket.selfDict,
    RequestTypes._CreateMarket.baseDict, dictGet, optPy]

/-- The Poll variant's payload always carries the discriminator. -/
theorem CreatePollMarket_discriminator_present (m : RequestTypes.CreatePollMarket) :
    dictGet m.to_json "outcomeType" = some (.vstr m.outcomeType.value) := by
  rw [RequestTypes.CreatePollMarket.to_json]
  apply createMarketToJson_discriminator
  apply hasKey_of_dictGet_some _ _ (.voutcome m.outcomeType)
  have hcount : countKey m.selfDict "outcomeType" ≤ 1 := by
    simp [RequestTypes.CreatePollMarket.selfDict, RequestTypes._CreateMarket.baseDict,
      countKey]
  rw [dictGet_dropNone _ _ hcount]
  simp [RequestTypes.CreatePollMarket.selfDict, RequestTypes._CreateMarket.baseDict,
    dictGet, optPy]

/-- The Bountied-question variant's payload always carries the discriminator. -/
theorem CreateBountiedQuestionMarket_discriminator_present
    (m : RequestTypes.CreateBountiedQuestionMarket) :
    dictGet m.to_json "outcomeType" = some (.vstr m.outcomeType.value) := by
  rw [RequestTypes.CreateBountiedQuestionMarket.to_json]
  apply createMarketToJson_discriminator
  apply hasKey_of_dictGet_some _ _ (.voutcome m.outcomeType)
  have hcount : countKey m.selfDict "outcomeType" ≤ 1 := by
    simp [RequestTypes.CreateBountiedQuestionMarket.selfDict,
      RequestTypes._CreateMarket.baseDict, countKey]
  rw [dictGet_dropNone _ _ hcount]
  simp [RequestTypes.CreateBountiedQuestionMarket.selfDict,
    RequestTypes._CreateMarket.baseDict, dictGet, optPy]

/-! ## Claim theorems -/

/-- C2 counterexample: the claim says constructing a Binary market-creation
variant with initial probability 0 fails with a `ValidationError` before any
serialization. In the source, `CreateBinaryMarket` is a plain dataclass with
no `__post_init__` and no validation of any kind (no `ValidationError` exists
anywhere in the repository), so the probability-0 instance is constructed
normally and even serializes to an ordinary payload carrying `initialProb: 0`. -/
theorem c2_probability_zero_accepted_counterexample :
    RequestTypes.CreateBinaryMarket.to_json
        ⟨⟨"Will X happen?", none, none, none, none, none⟩, 0, .BINARY⟩
      = [("question", .vstr "Will X happen?"), ("initialProb", .vint 0),
         ("outcomeType", .vstr "BINARY")] := rfl

/-- C2 (amended): constructing a Binary market-creation variant performs no
validation at all — every initial probability (0, 1, 99, 100, anything)
is accepted at construction time, no `ValidationError` is raised, and the
given probability is serialized unchanged into the payload. -/
theorem c2_amended_no_construction_validation (q : String) (p : Int) :
    RequestTypes.CreateBinaryMarket.to_json ⟨⟨q, none, none, none, none, none⟩, p, .BINARY⟩
      = [("question", .vstr q), ("initialProb", .vint p),
         ("outcomeType", .vstr "BINARY")] := by
  simp [RequestTypes.CreateBinaryMarket.to_json, RequestTypes.createMarketToJson,
    RequestTypes.CreateBinaryMarket.selfDict, RequestTypes._CreateMarket.baseDict,
    optPy, dropNone, hasKey, setKey, OutcomeType.value]

/-- C4: the claim says every market-creation variant's serialized payload
contains the `outcomeType` discriminator. For the `request_types.py`
Multiple-choice variant this fails: its `addAnswersMode` field is a plain
`Literal` string, yet `to_json` calls `.value` on it, so serialization raises
`AttributeError` on every input and never produces a payload at all.
(Evaluation at a concrete well-formed input; the sibling `achaekek.py` copy,
whose `addAnswersMode` is an `Enum`, behaves as the claim says, as do the four
other variants — see the `discriminator_present` lemmas above.) -/
theorem c4_multiple_choice_serializer_raises :
    RequestTypes.CreateMultipleChoiceMarket.to_json
        ⟨⟨"Which?", none, none, none, none, none⟩, ["A", "B"], "DISABLED",
          .MULTIPLE_CHOICE, true⟩
      = .error .attributeError := rfl

/-- C5 counterexample: the claim says a multiple-choice resolution whose
allocations are present and sum to 100 serializes them as plain
`{answer, pct}` mappings. At exactly the spec's own example input
(A: 60, B: 40) serialization instead raises `AttributeError`
(`json = super.to_json()` — missing parentheses), so no payload is produced. -/
theorem c5_valid_allocations_raise_counterexample :
    RequestTypes.ResolveMultipleChoiceMarket.to_json
        ⟨.MKT, some [⟨"A", 60⟩, ⟨"B", 40⟩]⟩
      = .error .attributeError := rfl

/-- C5 (amended): `ResolveMultipleChoiceMarket` performs no validation at
construction — any `resolutions` value, including an empty sequence or
percentages not summing to 100, is stored as given (no `InvalidResolution`
exists in the repository) — and its `to_json` raises `AttributeError` on
every input (the `super.to_json()` bug), so allocations are never rendered. -/
theorem c5_amended_resolution_behavior :
    (∀ (o : ResolveMCOutcome) (l : List MultipleChoiceResolution),
        (RequestTypes.ResolveMultipleChoiceMarket.mk o (some l)).resolutions = some l) ∧
    (∀ r : RequestTypes.ResolveMultipleChoiceMarket,
        r.to_json = .error .attributeError) :=
  ⟨fun _ _ => rfl, fun _ => rfl⟩

/-- C6: the claim says DISABLED, ONLY_CREATORS and ANYONE each serialize to a
distinct wire string in every revision. In `src/src/achaekek/__init__.py` the
enum reads `ANYONE = "DISABLED"`, so the two distinct symbolic names `ANYONE`
and `DISABLED` share the wire string `"DISABLED"` (evaluation of that module's
enum; the `achaekek.py` revision has three distinct wire strings). -/
theorem c6_old_add_answers_mode_collision :
    OldInit.AddAnswersMode.ANYONE ≠ OldInit.AddAnswersMode.DISABLED ∧
    OldInit.AddAnswersMode.value .ANYONE = OldInit.AddAnswersMode.value .DISABLED ∧
    OldInit.AddAnswersMode.value .ANYONE = "DISABLED" :=
  ⟨by decide, rfl, rfl⟩

/-- Supporting fact: the `achaekek.py` revision of the enum assigns the three
symbolic names pairwise distinct wire strings. -/
theorem new_add_answers_mode_distinct :
    ∀ a b : Achaekek.AddAnswersMode, a.value = b.value → a = b := by
  intro a b
  cases a <;> cases b <;> simp [Achaekek.AddAnswersMode.value]

/-- C7: the claim says a place-bet request with a limit probability present
serializes to a payload whose `limitprob` is the probability rounded to two
decimals. The `request_types.py` `CreateBetRequest.to_json` cited by the claim
never produces any payload: its first statement is `json = super.to_json()`
(missing parentheses), which raises `AttributeError` — evaluation at a
concrete input with `limitprob` present. (The `achaekek.py` copy of the same
method, with `super()` correctly called, does round and omit as claimed.) -/
theorem c7_bet_serializer_raises :
    RequestTypes.CreateBetRequest.to_json
        ⟨10, "c123", "YES", some (123 / 1000 : ℚ), none⟩
      = .error .attributeError := rfl

/-- C8: a timestamp serializes to the integer count of epoch milliseconds
under the local-timezone interpretation (`mktimeMs` is exactly
`epochSeconds * 1000`), and reconstructing a structured time from that value
recovers the same point in time to second precision; moreover the serializers
(here `GetManagramsRequest.to_json`, for its `before` cursor) embed exactly
that value in the payload. -/
theorem c8_timestamp_roundtrip :
    (∀ d : Datetime,
        d.mktimeMs = d.epochSeconds * 1000 ∧
        (datetimeOfEpochMillis d.mktimeMs).epochSeconds = d.epochSeconds) ∧
    (∀ (toId fromId : Option String) (limit : Option Int)
       (d : Datetime) (after : Option Datetime),
        dictGet ((RequestTypes.GetManagramsRequest.mk toId fromId limit (some d) after).to_json)
            "before"
          = some (.vint d.mktimeMs)) := by
  constructor
  · intro d
    refine ⟨rfl, ?_⟩
    simp [datetimeOfEpochMillis, Datetime.mktimeMs]
  · intro toId fromId limit d after
    rcases after with _ | a <;>
      simp only [RequestTypes.GetManagramsRequest.to_json,
        RequestTypes.requestModelToJson]
    · rw [dictGet_setKey_self]
    · rw [dictGet_setKey_ne _ _ (by decide : ("after" : String) ≠ "before"),
        dictGet_setKey_self]

/-- C9: in `request_types.py`, the `to_json` methods of `CreateBetRequest`,
`GetGroupsRequest` and `ResolveMultipleChoiceMarket` all begin with
`json = super.to_json()` — an attribute access on the builtin `super` type
itself (the parentheses are missing) — so each raises `AttributeError` on
every input and the remainder of each method body is unreachable. -/
theorem c9_super_serializers_always_raise :
    (∀ r : RequestTypes.CreateBetRequest, r.to_json = .error .attributeError) ∧
    (∀ g : RequestTypes.GetGroupsRequest, g.to_json = .error .attributeError) ∧
    (∀ r : RequestTypes.ResolveMultipleChoiceMarket,
        r.to_json = .error .attributeError) :=
  ⟨fun _ => rfl, fun _ => rfl, fun _ => rfl⟩

/-- C10: serialization does not mutate the request variant. In the
state-passing rendition of `_CreateMarket.to_json` (for `CreateBinaryMarket`)
and of `RequestModel.to_json` (for `GetMarketsRequest`), every statement of
the method body writes only the fresh local `json` dict, so the `self`
component comes back unchanged — every field holds the same value after the
call — while the payload component is exactly the serializer's output. -/
theorem c10_to_json_frame :
    (∀ m : RequestTypes.CreateBinaryMarket, m.to_json_run = (m.to_json, m)) ∧
    (∀ r : RequestTypes.GetMarketsRequest, r.to_json_run = (r.to_json, r)) :=
  ⟨fun _ => rfl, fun _ => rfl⟩

/-- C1 counterexample: the claim says the parameter mappings the Transport
Client sends for query operations never contain a key for an absent optional
field. But `Client.get_markets` passes `params=request.__dict__`, the raw
attribute mapping: for a default `GetMarketsRequest()` the mapping it hands to
the HTTP library contains the key `limit` bound to Python `None`. -/
theorem c1_query_params_keep_none_counterexample :
    dictGet (Achaekek.Client.get_markets ⟨"key"⟩
        ⟨none, none, none, none, none, none⟩).2 "limit"
      = some PyVal.vnone := rfl

/-- C1 (amended): payloads produced by `to_json` exclude absent optional
fields entirely — no key, not even bound to null (shown for every optional
field of the Binary market-creation variant and for the `RequestModel`-based
`GetMarketsRequest`); but the parameter mappings the Transport Client passes
to the HTTP library for the query operations (`get_markets`, `search_markets`,
`get_bets`, `get_comments`) are the raw attribute mappings
`request.__dict__`, in which every absent optional field appears as a key
bound to `None` (the underlying HTTP library, an external collaborator,
drops `None`-valued params before the request is emitted). -/
theorem c1_amended_optional_field_treatment :
    (∀ (q : String) (dsc : Option DescriptionVal) (vis : Option String)
       (g : Option (List String)) (el : Option Int) (p : Int) (o : OutcomeType),
        dictGet (RequestTypes.CreateBinaryMarket.to_json
          ⟨⟨q, none, dsc, vis, g, el⟩, p, o⟩) "closeTime" = none) ∧
    (∀ (q : String) (ct : Option Datetime) (vis : Option String)
       (g : Option (List String)) (el : Option Int) (p : Int) (o : OutcomeType),
        dictGet (RequestTypes.CreateBinaryMarket.to_json
          ⟨⟨q, ct, none, vis, g, el⟩, p, o⟩) "description" = none) ∧
    (∀ (q : String) (ct : Option Datetime) (dsc : Option DescriptionVal)
       (g : Option (List String)) (el : Option Int) (p : Int) (o : OutcomeType),
        dictGet (RequestTypes.CreateBinaryMarket.to_json
          ⟨⟨q, ct, dsc, none, g, el⟩, p, o⟩) "visibility" = none) ∧
    (∀ (q : String) (ct : Option Datetime) (dsc : Option DescriptionVal)
       (vis : Option String) (el : Option Int) (p : Int) (o : OutcomeType),
        dictGet (RequestTypes.CreateBinaryMarket.to_json
          ⟨⟨q, ct, dsc, vis, none, el⟩, p, o⟩) "groupIds" = none) ∧
    (∀ (q : String) (ct : Option Datetime) (dsc : Option DescriptionVal)
       (vis : Option String) (g : Option (List String)) (p : Int) (o : OutcomeType),
        dictGet (RequestTypes.CreateBinaryMarket.to_json
          ⟨⟨q, ct, dsc, vis, g, none⟩, p, o⟩) "extraLiquidity" = none) ∧
    (∀ (sort ord bef uid gid : Option String),
        dictGet (RequestTypes.GetMarketsRequest.to_json
          ⟨none, sort, ord, bef, uid, gid⟩) "limit" = none) ∧
    (∀ (lim : Option Int) (sort ord bef uid : Option String),
        dictGet (RequestTypes.GetMarketsRequest.to_json
          ⟨lim, sort, ord, bef, uid, none⟩) "groupId" = none) ∧
    (∀ (c : Achaekek.Client) (sort ord bef uid gid : Option String),
        dictGet (c.get_markets ⟨none, sort, ord, bef, uid, gid⟩).2 "limit"
          = some PyVal.vnone) ∧
    (∀ (c : Achaekek.Client) (t : String) (fil ctype ts cid : Option String)
       (lim off : Option Int),
        dictGet (c.search_markets ⟨t, none, fil, ctype, ts, cid, lim, off⟩).2 "sort"
          = some PyVal.vnone) ∧
    (∀ (c : Achaekek.Client) (un cid cs : Option String) (lim : Option Int)
       (bef aft kinds ord : Option String),
        dictGet (c.get_bets ⟨none, un, cid, cs, lim, bef, aft, kinds, ord⟩).2 "userId"
          = some PyVal.vnone) ∧
    (∀ (c : Achaekek.Client) (cs : Option String) (lim pg : Option Int)
       (uid : Option String),
        dictGet (c.get_comments ⟨none, cs, lim, pg, uid⟩).2 "contractId"
          = some PyVal.vnone) := by
  refine ⟨?_, ?_, ?_, ?_, ?_, ?_, ?_, ?_, ?_, ?_, ?_⟩
  · intro q dsc vis g el p o
    rw [RequestTypes.CreateBinaryMarket.to_json,
      dictGet_createMarketToJson_untouched _ _ _ _ _ (by decide) (.inl rfl)
        (.inr ⟨by decide, by intro f; cases f <;> decide⟩),
      dictGet_dropNone _ _ (by
        simp [RequestTypes.CreateBinaryMarket.selfDict,
          RequestTypes._CreateMarket.baseDict, countKey])]
    simp [RequestTypes.CreateBinaryMarket.selfDict,
      RequestTypes._CreateMarket.baseDict, dictGet, optPy]
  · intro q ct vis g el p o
    rw [RequestTypes.CreateBinaryMarket.to_json,
      dictGet_createMarketToJson_untouched _ _ _ _ _ (by decide)
        (.inr (by decide)) (.inl (fun _ _ h => Option.noConfusion h)),
      dictGet_dropNone _ _ (by
        simp [RequestTypes.CreateBinaryMarket.selfDict,
          RequestTypes._CreateMarket.baseDict, countKey])]
    simp [RequestTypes.CreateBinaryMarket.selfDict,
      RequestTypes._CreateMarket.baseDict, dictGet, optPy]
  · intro q ct dsc g el p o
    rw [RequestTypes.CreateBinaryMarket.to_json,
      dictGet_createMarketToJson_untouched _ _ _ _ _ (by decide)
        (.inr (by decide)) (.inr ⟨by decide, by intro f; cases f <;> decide⟩),
      dictGet_dropNone _ _ (by
        simp [RequestTypes.CreateBinaryMarket.selfDict,
          RequestTypes._CreateMarket.baseDict, countKey])]
    simp [RequestTypes.CreateBinaryMarket.selfDict,
      RequestTypes._CreateMarket.baseDict, dictGet, optPy]
  · intro q ct dsc vis el p o
    rw [RequestTypes.CreateBinaryMarket.to_json,
      dictGet_createMarketToJson_untouched _ _ _ _ _ (by decide)
        (.inr (by decide)) (.inr ⟨by decide, by intro f; cases f <;> decide⟩),
      dictGet_dropNone _ _ (by
        simp [RequestTypes.CreateBinaryMarket.selfDict,
          RequestTypes._CreateMarket.baseDict, countKey])]
    simp [RequestTypes.CreateBinaryMarket.selfDict,
      RequestTypes._CreateMarket.baseDict, dictGet, optPy]
  · intro q ct dsc vis g p o
    rw [RequestTypes.CreateBinaryMarket.to_json,
      dictGet_createMarketToJson_untouched _ _ _ _ _ (by decide)
        (.inr (by decide)) (.inr ⟨by decide, by intro f; cases f <;> decide⟩),
      dictGet_dropNone _ _ (by
        simp [RequestTypes.CreateBinaryMarket.selfDict,
          RequestTypes._CreateMarket.baseDict, countKey])]
    simp [RequestTypes.CreateBinaryMarket.selfDict,
      RequestTypes._CreateMarket.baseDict, dictGet, optPy]
  · intro sort ord bef uid gid
    rw [RequestTypes.GetMarketsRequest.to_json, RequestTypes.requestModelToJson,
      dictGet_dropNone _ _ (by
        simp [RequestTypes.GetMarketsRequest.selfDict, countKey])]
    simp [RequestTypes.GetMarketsRequest.selfDict, dictGet, optPy]
  · intro lim sort ord bef uid
    rw [RequestTypes.GetMarketsRequest.to_json, RequestTypes.requestModelToJson,
      dictGet_dropNone _ _ (by
        simp [RequestTypes.GetMarketsRequest.selfDict, countKey])]
    simp [RequestTypes.GetMarketsRequest.selfDict, dictGet, optPy]
  · intro c sort ord bef uid gid
    simp [Achaekek.Client.get_markets, Achaekek.GetMarketsRequest.selfDict,
      optPy, dictGet]
  · intro c t fil ctype ts cid lim off
    simp [Achaekek.Client.search_markets, Achaekek.SearchRequest.selfDict,
      optPy, dictGet]
  · intro c un cid cs lim bef aft kinds ord
    simp [Achaekek.Client.get_bets, Achaekek.GetBetsRequest.selfDict,
      optPy, dictGet]
  · intro c cs lim pg uid
    simp [Achaekek.Client.get_comments, Achaekek.GetCommentsRequest.selfDict,
      optPy, dictGet]

/-- C3: for any tagged value (content, tag) in a market description or a
comment body, serialization produces exactly one field named by the tag's
wire string, holding exactly the content, and the logical field name
`description` does not appear in the payload (shown for the Binary
market-creation variant over all other fields, and for
`CreateCommentRequest`). -/
theorem c3_tagged_value_serialization :
    (∀ (q : String) (ct : Option Datetime) (vis : Option String)
       (g : Option (List String)) (el : Option Int) (p : Int) (o : OutcomeType)
       (content : String) (f : DescriptionFormat),
        countKey (RequestTypes.CreateBinaryMarket.to_json
            ⟨⟨q, ct, some (.tagged content f), vis, g, el⟩, p, o⟩) f.value = 1 ∧
        dictGet (RequestTypes.CreateBinaryMarket.to_json
            ⟨⟨q, ct, some (.tagged content f), vis, g, el⟩, p, o⟩) f.value
          = some (.vstr content) ∧
        dictGet (RequestTypes.CreateBinaryMarket.to_json
            ⟨⟨q, ct, some (.tagged content f), vis, g, el⟩, p, o⟩) "description"
          = none) ∧
    (∀ (cid content : String) (f : CommentFormat),
        countKey (RequestTypes.CreateCommentRequest.to_json
            ⟨cid, some (.tagged content f)⟩) f.lit = 1 ∧
        dictGet (RequestTypes.CreateCommentRequest.to_json
            ⟨cid, some (.tagged content f)⟩) f.lit = some (.vstr content) ∧
        dictGet (RequestTypes.CreateCommentRequest.to_json
            ⟨cid, some (.tagged content f)⟩) "description" = none) := by
  constructor
  · intro q ct vis g el p o content f
    rw [RequestTypes.CreateBinaryMarket.to_json]
    exact createMarketToJson_tagged_props _ _ _ _ _ (by
      cases f <;>
        simp [RequestTypes.CreateBinaryMarket.selfDict,
          RequestTypes._CreateMarket.baseDict, hasKey, DescriptionFormat.value])
  · intro cid content f
    cases f <;>
      simp [RequestTypes.CreateCommentRequest.to_json,
        RequestTypes.requestModelToJson, RequestTypes.CreateCommentRequest.selfDict,
        optPy, dropNone, setKey, delKey, dictGet, countKey, CommentFormat.lit]
